import Mathlib

/-!
# Verification of the user-account lifecycle service

Shallow embedding of `src/routes/user/user.service.ts` (and the relevant
parts of `src/routes/user/user.controller.ts`) of the check-mark-backend
repository, together with models of its external collaborators (user DAO,
credential hasher, token issuer, notifier) as described by the design
document.  Timestamps are naturals (milliseconds since epoch, as JS
`Date.now()`); the persistent stores are explicit state threaded through
each operation.
-/

set_option maxHeartbeats 1000000
set_option linter.unusedVariables false

namespace CheckMark

/-- A persisted user record (the `User` mongoose document).  `password`
holds the stored password hash, `otp` the stored OTP hash; `verificationToken`
is the plain stored token, cleared to `""` by a successful verification. -/
structure User where
  id : Nat
  email : String
  password : String
  isVerified : Bool
  verificationToken : String
  lastLogin : Option Nat
  otp : Option String
  otpExpires : Option Nat
deriving DecidableEq, Repr

/-- Claims carried by a refresh token: user id, email and the `exp` expiry
claim. -/
structure TokenClaims where
  id : Nat
  email : String
  exp : Nat
deriving DecidableEq, Repr

/-- A refresh-token value as seen by the service: either a structurally
valid, correctly signed token carrying its claims, or a malformed /
signature-mismatched string. -/
inductive RToken where
  | signed (claims : TokenClaims)
  | malformed (raw : String)
deriving DecidableEq, Repr

/-- Failure modes of refresh-token decoding. -/
inductive DecodeErr where
  | tokenInvalid
  | tokenExpired
deriving DecidableEq, Repr

/-- Modelled from the spec: the Token Issuer's
`decodeRefresh(token) -> claims | fails(TokenInvalid | TokenExpired)`
(`decodeRefreshToken` lives in `src/middlewares/verifyRefreshToken`, not in
the given sources).  A structurally invalid or signature-mismatched token
fails with `TokenInvalid`; a structurally valid but time-expired token fails
with `TokenExpired`; otherwise the claims are returned. -/
def decodeRefreshToken (now : Nat) : RToken → Except DecodeErr TokenClaims
  | .malformed _ => .error .tokenInvalid
  | .signed c => if c.exp ≤ now then .error .tokenExpired else .ok c

/-- Modelled from the spec: the Credential Hasher's one-way `hash`
(`bcrypt.hash` / the mongoose pre-save hook, not in the given sources),
abstracted as a tagging injection. -/
def bcryptHash (secret : String) : String :=
  "bcrypt$" ++ secret

/-- Modelled from the spec: the Credential Hasher's
`verify(secret, hash) -> bool` (`bcrypt.compare` /
`user.comparePassword`, not in the given sources). -/
def bcryptCompare (secret storedHash : String) : Bool :=
  storedHash == bcryptHash secret

/-- Modelled from the spec: the Token Issuer's `issue(claims{id, email})`
(`generateTokens` in `src/utils/generateToken`, not in the given sources):
an access token and a refresh token embedding a 7-day `exp` claim. -/
def generateTokens (now : Nat) (id : Nat) (email : String) : String × RToken :=
  ("access." ++ toString id ++ "." ++ email,
   RToken.signed ⟨id, email, now + 7 * 24 * 60 * 60 * 1000⟩)

/-- The shared persistent state: the user collection and the refresh-token
blacklist (token, expiresAt). -/
structure AppState where
  users : List User
  blacklist : List (RToken × Nat)
deriving DecidableEq, Repr

/-- Modelled from the spec: `findByEmailSecure` used as an existence check
(`userDao.checkUserEmailExist`, not in the given sources). -/
def checkUserEmailExist (st : AppState) (email : String) : Bool :=
  (st.users.find? (fun u => u.email == email)).isSome

/-- Modelled from the spec: `findByEmailInsecure`
(`userDao.getUserByEmailInsecure`, not in the given sources) — full record
lookup by email. -/
def getUserByEmailInsecure (st : AppState) (email : String) : Option User :=
  st.users.find? (fun u => u.email == email)

/-- Modelled from the spec: `userDao.getUserByEmail` (not in the given
sources) — record lookup by email, as used by `forgotPassword`. -/
def getUserByEmail (st : AppState) (email : String) : Option User :=
  st.users.find? (fun u => u.email == email)

/-- Modelled from the spec: persisting a mutated user document
(`user.save()`); the record with the same (unique, immutable) email is
replaced. -/
def saveUserRecord (st : AppState) (u : User) : AppState :=
  { st with users := st.users.map (fun v => if v.email == u.email then u else v) }

/-- Modelled from the spec: `blacklist(token, expiresAt)` — idempotent
insert (`userDao.blacklistToken`, not in the given sources). -/
def blacklistToken (bl : List (RToken × Nat)) (t : RToken) (expiresAt : Nat) :
    List (RToken × Nat) :=
  if bl.any (fun p => p.1 == t) then bl else (t, expiresAt) :: bl

/-- Payload carried by a response envelope. -/
inductive RespData where
  | empty
  | userData (id : Nat) (email : String) (isVerified : Bool)
  | tokenData (accessToken : String)
deriving DecidableEq, Repr

/-- The `{ code, message, data }` response envelope produced by every
operation (`Format` in `src/utils/format`, modelled from the spec). -/
structure Resp where
  code : Nat
  message : String
  data : RespData
deriving DecidableEq, Repr

namespace Format

/-- Modelled from the spec: `Format.success` — code 200. -/
def success (data : RespData) (message : String) : Resp :=
  ⟨200, message, data⟩

/-- Modelled from the spec: `Format.notFound` — code 404. -/
def notFound (message : String) : Resp :=
  ⟨404, message, .empty⟩

/-- Modelled from the spec: `Format.badRequest` — code 400. -/
def badRequest (message : String) : Resp :=
  ⟨400, message, .empty⟩

/-- Modelled from the spec: `Format.unAuthorized` — code 401. -/
def unAuthorized (message : String) : Resp :=
  ⟨401, message, .empty⟩

/-- Modelled from the spec: `Format.error` — explicit code. -/
def error (code : Nat) (message : String) : Resp :=
  ⟨code, message, .empty⟩

end Format

/-- The error thrown by `addUser` on a duplicate email (`APIError`). -/
structure APIError where
  message : String
  status : Nat
deriving DecidableEq, Repr

/-- Outcome of a notifier send (`sendEmail` in `src/services/mailing`,
modelled from the spec as an external fire-and-forget collaborator). -/
inductive SendErr where
  | sendFailed
deriving DecidableEq, Repr

/-- `true` exactly on the lowercase hexadecimal digits `0-9a-f`. -/
def isHexDigitChar (c : Char) : Bool :=
  c.isDigit || ('a' ≤ c && c ≤ 'f')

/-- The lowercase hex digit of `n % 16`. -/
def hexDigit (n : Nat) : Char :=
  Nat.digitChar (n % 16)

/-- The two-digit lowercase hex rendering of one byte. -/
def byteHex (b : Fin 256) : List Char :=
  [hexDigit (b.val / 16), hexDigit b.val]

/-- `Buffer.toString('hex')`: each byte becomes two lowercase hex digits
(`crypto.randomBytes(6).toString('hex')` in `forgotPassword`). -/
def toHexString (bs : List (Fin 256)) : String :=
  ⟨(bs.map byteHex).flatten⟩

/-- Payload of a signup request (`IAddUserPayload`, restricted to the
fields the service reads). -/
structure AddUserPayload where
  email : String
  password : String
deriving DecidableEq, Repr

/-- `addUser` (user.service.ts:31-62): rejects a duplicate email found via
the secure existence lookup by throwing `APIError` 400, otherwise persists
a fresh unverified user and returns the sanitized record (password and
verification token stripped).  `freshId` and `freshToken` stand for the
id and single-use verification token generated on persist; the
verification email is sent without awaiting it, so its outcome cannot
influence the result. -/
def addUser (freshId : Nat) (freshToken : String) (st : AppState)
    (props : AddUserPayload) : Except APIError (AppState × Resp) :=
  if checkUserEmailExist st props.email then
    .error ⟨"Account already exists with this email.", 400⟩
  else
    let newUser : User :=
      { id := freshId, email := props.email, password := bcryptHash props.password,
        isVerified := false, verificationToken := freshToken,
        lastLogin := none, otp := none, otpExpires := none }
    .ok ({ st with users := st.users ++ [newUser] },
         Format.success (.userData newUser.id newUser.email newUser.isVerified)
           "User created successfully")

/-- `loginUser` (user.service.ts:69-117): 404 if the email is unknown;
403 (with a re-sent, non-awaited verification email) if the account is
unverified — regardless of the password; 401 on a password mismatch;
otherwise issues a token pair, stamps `lastLogin`, persists, returns the
access token in the envelope and the refresh token via the cookie (the
third component). -/
def loginUser (now : Nat) (st : AppState) (email password : String) :
    AppState × Resp × Option RToken :=
  match getUserByEmailInsecure st email with
  | none => (st, Format.notFound "User not found", none)
  | some user =>
    let isPasswordMatch := bcryptCompare password user.password
    if !user.isVerified then
      (st, Format.error 403 "Email not verified. Verification link sent to your email.",
       none)
    else if !isPasswordMatch then
      (st, Format.unAuthorized "Invalid credentials", none)
    else
      let pair := generateTokens now user.id user.email
      let user1 := { user with lastLogin := some now }
      (saveUserRecord st user1,
       Format.success (.tokenData pair.1) "User login successful", some pair.2)

/-- `verifyEmail` (user.service.ts:125-142): 404 if the email is unknown;
if the stored verification token equals the supplied token, sets
`isVerified`, clears the token to `""`, persists and succeeds; otherwise
400 "Invalid verification link". -/
def verifyEmail (st : AppState) (token email : String) : AppState × Resp :=
  match getUserByEmailInsecure st email with
  | none => (st, Format.notFound "User not found")
  | some user =>
    if user.verificationToken == token then
      let user1 := { user with isVerified := true, verificationToken := "" }
      (saveUserRecord st user1, Format.success .empty "Email verified successfully")
    else
      (st, Format.badRequest "Invalid verification link")

/-- `refreshAccessToken` (user.service.ts:150-167): decodes the old token's
expiry claim with no surrounding try/catch — a decode failure propagates
out as the thrown error (`.error`) — then blacklists the old token,
issues a fresh pair, sets the refresh-token cookie and returns the new
access token.  On success the result carries the new state, the new access
token, the new refresh token (cookie) and the envelope. -/
def refreshAccessToken (now : Nat) (st : AppState) (user : User) (oldToken : RToken) :
    Except DecodeErr (AppState × String × RToken × Resp) :=
  match decodeRefreshToken now oldToken with
  | .error e => .error e
  | .ok c =>
    let st1 := { st with blacklist := blacklistToken st.blacklist oldToken c.exp }
    let pair := generateTokens now user.id user.email
    .ok (st1, pair.1, pair.2,
         Format.success (.tokenData pair.1) "Access,Refresh token updated successfully")

/-- What `refreshAccessTokenHandler` (user.controller.ts:115-134) does with
the service outcome: a successful envelope is sent with status 200; a
thrown error is passed to `next(error)`. -/
inductive HandlerOut where
  | status (code : Nat) (body : Resp)
  | nextErr (e : DecodeErr)
deriving DecidableEq, Repr

/-- `refreshAccessTokenHandler` (user.controller.ts:115-134): calls the
service inside try/catch; on success sends the envelope with status 200,
on a thrown decode error forwards it to `next` with the state untouched. -/
def refreshAccessTokenHandler (now : Nat) (st : AppState) (user : User)
    (oldToken : RToken) : AppState × HandlerOut :=
  match refreshAccessToken now st user oldToken with
  | .ok out => (out.1, .status 200 out.2.2.2)
  | .error e => (st, .nextErr e)

/-- `logoutUser` (user.service.ts:174-193): tries to decode the refresh
token; any decode failure (expired or invalid) is swallowed and reported
as an already-logged-out success with no state change; on a successful
decode the token is blacklisted with its `exp` claim and the operation
succeeds. -/
def logoutUser (now : Nat) (st : AppState) (refreshToken : RToken) : AppState × Resp :=
  match decodeRefreshToken now refreshToken with
  | .error _ => (st, Format.success .empty "User already logged out")
  | .ok c =>
    ({ st with blacklist := blacklistToken st.blacklist refreshToken c.exp },
     Format.success .empty "User logged out successfully")

/-- `forgotPassword` (user.service.ts:200-227): 404 if the email is
unknown; otherwise derives a 12-hex-char OTP from six random bytes
(`otpBytes`), stores its bcrypt hash and a 5-minute expiry on the user,
then `await`s the notifier send — a send failure is thrown out of the
operation (`.error`) before `user.save()` runs, so nothing is persisted on
that path — and finally persists and succeeds.  On success the result
carries the new state, the envelope, and the plaintext OTP handed to the
notifier. -/
def forgotPassword (now : Nat) (otpBytes : List (Fin 256))
    (sendResult : Except SendErr Unit) (st : AppState) (email : String) :
    Except SendErr (AppState × Resp × Option String) :=
  match getUserByEmail st email with
  | none => .ok (st, Format.notFound "User not found", none)
  | some user =>
    let otp := toHexString otpBytes
    let user1 := { user with otp := some (bcryptHash otp),
                             otpExpires := some (now + 5 * 60 * 1000) }
    match sendResult with
    | .error e => .error e
    | .ok _ =>
      .ok (saveUserRecord st user1, Format.success .empty "OTP sent to your email",
           some otp)

/-- `resetPassword` (user.service.ts:234-260): 404 if the email is
unknown; 400 "OTP expired" if either OTP field is unset or the stored
expiry is strictly before `now`; then the source assigns
`bcrypt.compare(props.otp, user.otp)` WITHOUT awaiting it, so `isOtpMatch`
is a pending promise and the `!isOtpMatch` guard tests a truthy object —
the "Invalid OTP" branch is unreachable; finally stores the new password
(hashed on save), clears both OTP fields, persists and succeeds. -/
def resetPassword (now : Nat) (st : AppState) (email newPassword otp : String) :
    AppState × Resp :=
  match getUserByEmailInsecure st email with
  | none => (st, Format.notFound "User not found")
  | some user =>
    match user.otp, user.otpExpires with
    | some _storedOtpHash, some otpExpires =>
      if otpExpires < now then
        (st, Format.badRequest "OTP expired")
      else
        let isOtpMatch := true
        if !isOtpMatch then
          (st, Format.badRequest "Invalid OTP")
        else
          let user1 := { user with password := bcryptHash newPassword,
                                   otp := none, otpExpires := none }
          (saveUserRecord st user1, Format.success .empty "Password reset successfully")
    | _, _ => (st, Format.badRequest "OTP expired")

/-! ## Helper lemmas -/

theorem find?_map_save (l : List User) (e : String) (u u1 : User)
    (hfind : l.find? (fun v => v.email == e) = some u) (he : u1.email = u.email) :
    (l.map (fun v => if v.email == u1.email then u1 else v)).find?
      (fun v => v.email == e) = some u1 := by
  have hu : u.email = e := by
    have h := List.find?_some hfind
    simpa using h
  induction l with
  | nil => simp at hfind
  | cons a l ih =>
    simp only [List.map_cons]
    cases h : (a.email == e) with
    | true =>
      have ha : a.email = e := by simpa using h
      have h1 : (a :: l).find? (fun v => v.email == e) = some a :=
        List.find?_cons_of_pos _ (by simpa using ha)
      rw [h1] at hfind
      have hau : a = u := by injection hfind
      have hcond : (a.email == u1.email) = true := by
        simp [hau, he]
      rw [if_pos hcond]
      exact List.find?_cons_of_pos _ (by simpa using he.trans hu)
    | false =>
      have ha : a.email ≠ e := by simpa using h
      have h1 : (a :: l).find? (fun v => v.email == e) = l.find? (fun v => v.email == e) :=
        List.find?_cons_of_neg _ (by simpa using ha)
      rw [h1] at hfind
      have hcond : ¬ ((a.email == u1.email) = true) := by
        simp [he, hu]
        exact ha
      rw [if_neg hcond]
      rw [List.find?_cons_of_neg _ (by simpa using ha)]
      exact ih hfind

theorem getUserByEmailInsecure_save (st : AppState) (e : String) (u u1 : User)
    (hfind : getUserByEmailInsecure st e = some u) (he : u1.email = u.email) :
    getUserByEmailInsecure (saveUserRecord st u1) e = some u1 :=
  find?_map_save st.users e u u1 hfind he

theorem filter_eq_nil_of_any_eq_false {α : Type} (p : α → Bool) (l : List α)
    (h : l.any p = false) : l.filter p = [] := by
  rw [List.filter_eq_nil_iff]
  intro a ha
  have := List.any_eq_false.mp h a ha
  simp [this]

theorem length_toHexString (bs : List (Fin 256)) :
    (toHexString bs).length = 2 * bs.length := by
  induction bs with
  | nil => rfl
  | cons b bs ih =>
    simp only [toHexString, String.length, List.map_cons, List.flatten_cons] at *
    simp [byteHex] at *
    omega

theorem isHexDigitChar_hexDigit (n : Nat) : isHexDigitChar (hexDigit n) = true := by
  unfold hexDigit
  have h : n % 16 < 16 := Nat.mod_lt _ (by omega)
  generalize n % 16 = m at h
  interval_cases m <;> decide

theorem isHex_of_mem_toHexString (bs : List (Fin 256)) :
    ∀ ch ∈ (toHexString bs).data, isHexDigitChar ch = true := by
  intro ch hch
  simp only [toHexString, List.mem_flatten, List.mem_map] at hch
  obtain ⟨l, ⟨b, _, rfl⟩, hl⟩ := hch
  simp only [byteHex, List.mem_cons, List.mem_singleton] at hl
  rcases hl with h | h | h
  · exact h ▸ isHexDigitChar_hexDigit _
  · exact h ▸ isHexDigitChar_hexDigit _
  · simp at h

/-! ## Claim theorems -/

/-- A state with one user whose OTP hash is `bcryptHash "aaaabbbbcccc"`,
unexpired at time 500 (expiry 1000). -/
def stOtpSet : AppState :=
  ⟨[⟨1, "a@x.com", bcryptHash "oldpw", true, "", none,
     some (bcryptHash "aaaabbbbcccc"), some 1000⟩], []⟩

/-- **C1** — the claim fails on the code: because `bcrypt.compare` is
assigned without `await`, the `!isOtpMatch` guard tests a pending (truthy)
promise and the "Invalid OTP" branch is dead.  At time 500, with the
stored OTP hash being that of `"aaaabbbbcccc"`, a call supplying the
non-matching OTP `"WRONG"` nevertheless succeeds and overwrites the
password, where the claim requires `BadRequest "invalid OTP"` and no
mutation. -/
theorem resetPassword_accepts_wrong_otp :
    bcryptCompare "WRONG" (bcryptHash "aaaabbbbcccc") = false
    ∧ resetPassword 500 stOtpSet "a@x.com" "newpw" "WRONG"
        = (⟨[⟨1, "a@x.com", bcryptHash "newpw", true, "", none, none, none⟩], []⟩,
           Format.success .empty "Password reset successfully") := by
  constructor
  · decide
  · rfl

/-- A state with a single unverified user whose password hash matches
`"pw"`. -/
def stUnverified : AppState :=
  ⟨[⟨1, "a@x.com", bcryptHash "pw", false, "TOK", none, none, none⟩], []⟩

/-- **C2** — for every user whose `isVerified` flag is false, `loginUser`
returns the 403 "Email not verified" envelope for every supplied password
and leaves the state unchanged: the verification-status branch decides the
outcome before the password-correctness branch. -/
theorem loginUser_unverified_forbidden (now : Nat) (st : AppState)
    (email password : String) (user : User)
    (hfind : getUserByEmailInsecure st email = some user)
    (hver : user.isVerified = false) :
    loginUser now st email password
      = (st, Format.error 403 "Email not verified. Verification link sent to your email.",
         none) := by
  unfold loginUser
  rw [hfind]
  simp [hver]

/-- Witness for C2: the unverified user of `stUnverified` gets 403 both
with the correct password `"pw"` and with the wrong password `"bad"`. -/
theorem loginUser_unverified_forbidden_witness :
    getUserByEmailInsecure stUnverified "a@x.com"
        = some ⟨1, "a@x.com", bcryptHash "pw", false, "TOK", none, none, none⟩
    ∧ loginUser 100 stUnverified "a@x.com" "pw"
        = (stUnverified,
           Format.error 403 "Email not verified. Verification link sent to your email.",
           none)
    ∧ loginUser 100 stUnverified "a@x.com" "bad"
        = (stUnverified,
           Format.error 403 "Email not verified. Verification link sent to your email.",
           none) :=
  ⟨by decide,
   loginUser_unverified_forbidden 100 stUnverified "a@x.com" "pw"
     ⟨1, "a@x.com", bcryptHash "pw", false, "TOK", none, none, none⟩ (by decide) rfl,
   loginUser_unverified_forbidden 100 stUnverified "a@x.com" "bad"
     ⟨1, "a@x.com", bcryptHash "pw", false, "TOK", none, none, none⟩ (by decide) rfl⟩

/-- **C9** — a user whose verification token has been cleared to `""` by a
prior successful verification (so `isVerified` is already true) is matched
again by `verifyEmail` with the empty-string token, which succeeds instead
of returning `BadRequest`. -/
theorem verifyEmail_cleared_token_succeeds_again (st : AppState) (email : String)
    (user : User) (hfind : getUserByEmailInsecure st email = some user)
    (hver : user.isVerified = true) (htok : user.verificationToken = "") :
    (verifyEmail st "" email).2 = Format.success .empty "Email verified successfully" := by
  unfold verifyEmail
  rw [hfind]
  simp [htok]

/-- A state holding the exact record produced by a successful verification:
verified, token cleared to `""`. -/
def stVerifiedCleared : AppState :=
  ⟨[⟨1, "a@x.com", bcryptHash "pw", true, "", none, none, none⟩], []⟩

/-- Witness for C9 at the concrete post-verification state. -/
theorem verifyEmail_cleared_token_succeeds_again_witness :
    (getUserByEmailInsecure stVerifiedCleared "a@x.com"
        = some ⟨1, "a@x.com", bcryptHash "pw", true, "", none, none, none⟩)
    ∧ (verifyEmail stVerifiedCleared "" "a@x.com").2
        = Format.success .empty "Email verified successfully" :=
  ⟨by decide,
   verifyEmail_cleared_token_succeeds_again stVerifiedCleared "a@x.com"
     ⟨1, "a@x.com", bcryptHash "pw", true, "", none, none, none⟩ (by decide) rfl rfl⟩

/-- **C3 counterexample** — the claim quantifies over every stored
verification token; at the stored token `""` (exactly the value a prior
successful verification leaves behind) the first call succeeds and the
replay of the very same call succeeds again instead of failing with
`BadRequest`. -/
theorem verifyEmail_empty_token_replay_not_rejected :
    (verifyEmail stVerifiedCleared "" "a@x.com").2
        = Format.success .empty "Email verified successfully"
    ∧ (verifyEmail (verifyEmail stVerifiedCleared "" "a@x.com").1 "" "a@x.com").2
        = Format.success .empty "Email verified successfully" := by
  constructor <;> rfl

/-- **C3 (amended: nonempty stored token)** — for every user whose stored
verification token is a nonempty `T`, `verifyEmail T` succeeds, sets
`isVerified`, clears the token and persists; replaying the same call on
the resulting state fails with `BadRequest "Invalid verification link"`. -/
theorem verifyEmail_succeeds_once (st : AppState) (T email : String) (user : User)
    (hfind : getUserByEmailInsecure st email = some user)
    (htok : user.verificationToken = T) (hne : T ≠ "") :
    verifyEmail st T email
      = (saveUserRecord st { user with isVerified := true, verificationToken := "" },
         Format.success .empty "Email verified successfully")
    ∧ (verifyEmail (verifyEmail st T email).1 T email).2
        = Format.badRequest "Invalid verification link" := by
  have h1 : verifyEmail st T email
      = (saveUserRecord st { user with isVerified := true, verificationToken := "" },
         Format.success .empty "Email verified successfully") := by
    unfold verifyEmail
    rw [hfind]
    simp [htok]
  refine ⟨h1, ?_⟩
  rw [h1]
  have h2 : getUserByEmailInsecure
      (saveUserRecord st { user with isVerified := true, verificationToken := "" }) email
      = some { user with isVerified := true, verificationToken := "" } :=
    getUserByEmailInsecure_save st email user _ hfind rfl
  unfold verifyEmail
  rw [h2]
  have h3 : (("" : String) == T) = false := by
    rw [beq_eq_false_iff_ne]
    exact fun h => hne h.symm
  simp [h3]

/-- A state with one unverified user holding the nonempty stored
verification token `"TOK"`. -/
def stFreshSignup : AppState :=
  ⟨[⟨1, "a@x.com", bcryptHash "pw", false, "TOK", none, none, none⟩], []⟩

/-- Witness for C3: at the concrete state `stFreshSignup` with token
`"TOK"`, verification succeeds and the replay is rejected. -/
theorem verifyEmail_succeeds_once_witness :
    getUserByEmailInsecure stFreshSignup "a@x.com"
        = some ⟨1, "a@x.com", bcryptHash "pw", false, "TOK", none, none, none⟩
    ∧ ("TOK" : String) ≠ ""
    ∧ (verifyEmail stFreshSignup "TOK" "a@x.com"
          = (saveUserRecord stFreshSignup
               ⟨1, "a@x.com", bcryptHash "pw", true, "", none, none, none⟩,
             Format.success .empty "Email verified successfully")
        ∧ (verifyEmail (verifyEmail stFreshSignup "TOK" "a@x.com").1 "TOK" "a@x.com").2
            = Format.badRequest "Invalid verification link") :=
  ⟨by decide, by decide,
   verifyEmail_succeeds_once stFreshSignup "TOK" "a@x.com"
     ⟨1, "a@x.com", bcryptHash "pw", false, "TOK", none, none, none⟩
     (by decide) rfl (by decide)⟩

/-- **C4** — when no user exists with the payload's email, the first
`addUser` succeeds, and a second `addUser` with the same email on the
resulting state is rejected with the thrown `APIError` 400 "Account
already exists with this email." by the secure existence lookup. -/
theorem addUser_duplicate_rejected (st : AppState) (props : AddUserPayload)
    (id1 id2 : Nat) (tok1 tok2 : String)
    (hfresh : checkUserEmailExist st props.email = false) :
    (∃ st1 resp1, addUser id1 tok1 st props = .ok (st1, resp1))
    ∧ (∀ st1 resp1, addUser id1 tok1 st props = .ok (st1, resp1) →
        addUser id2 tok2 st1 props
          = .error ⟨"Account already exists with this email.", 400⟩) := by
  have h1 : addUser id1 tok1 st props
      = .ok ({ st with users := st.users ++
                 [{ id := id1, email := props.email,
                    password := bcryptHash props.password, isVerified := false,
                    verificationToken := tok1, lastLogin := none,
                    otp := none, otpExpires := none }] },
             Format.success (.userData id1 props.email false)
               "User created successfully") := by
    unfold addUser
    simp [hfresh]
  refine ⟨⟨_, _, h1⟩, ?_⟩
  intro st1 resp1 h
  rw [h1] at h
  injection h with h
  have hst : st1 = { st with users := st.users ++
      [{ id := id1, email := props.email, password := bcryptHash props.password,
         isVerified := false, verificationToken := tok1, lastLogin := none,
         otp := none, otpExpires := none }] } :=
    (Prod.mk.injEq _ _ _ _ |>.mp h).1.symm
  subst hst
  have hex : checkUserEmailExist { st with users := st.users ++
      [{ id := id1, email := props.email, password := bcryptHash props.password,
         isVerified := false, verificationToken := tok1, lastLogin := none,
         otp := none, otpExpires := none }] } props.email = true := by
    unfold checkUserEmailExist
    rw [List.find?_isSome]
    refine ⟨{ id := id1, email := props.email, password := bcryptHash props.password,
              isVerified := false, verificationToken := tok1, lastLogin := none,
              otp := none, otpExpires := none },
            List.mem_append_right st.users (List.mem_singleton_self _), ?_⟩
    simp
  unfold addUser
  simp [hex]

/-- Witness for C4: signing up `"a@x.com"` twice from the empty store —
the first call succeeds and the second fails with the duplicate-email
error. -/
theorem addUser_duplicate_rejected_witness :
    checkUserEmailExist ⟨[], []⟩ "a@x.com" = false
    ∧ ((∃ st1 resp1, addUser 1 "TOK" ⟨[], []⟩ ⟨"a@x.com", "pw"⟩ = .ok (st1, resp1))
        ∧ (∀ st1 resp1, addUser 1 "TOK" ⟨[], []⟩ ⟨"a@x.com", "pw"⟩ = .ok (st1, resp1) →
            addUser 2 "TOK2" st1 ⟨"a@x.com", "pw"⟩
              = .error ⟨"Account already exists with this email.", 400⟩)) :=
  ⟨by decide,
   addUser_duplicate_rejected ⟨[], []⟩ ⟨"a@x.com", "pw"⟩ 1 2 "TOK" "TOK2" (by decide)⟩

/-- **C5** — when decoding the refresh token fails, `logoutUser` succeeds
("User already logged out") with the state — in particular the blacklist —
unchanged; when decoding succeeds and the token is not yet blacklisted,
`logoutUser` succeeds and the resulting blacklist holds exactly one entry
keyed by the token, carrying the token's `exp` claim. -/
theorem logoutUser_blacklist (now : Nat) (st : AppState) (t : RToken)
    (hfresh : st.blacklist.any (fun p => p.1 == t) = false) :
    (∀ e, decodeRefreshToken now t = .error e →
        logoutUser now st t = (st, Format.success .empty "User already logged out"))
    ∧ (∀ c, decodeRefreshToken now t = .ok c →
        logoutUser now st t
          = ({ st with blacklist := (t, c.exp) :: st.blacklist },
             Format.success .empty "User logged out successfully")
        ∧ (logoutUser now st t).1.blacklist.filter (fun p => p.1 == t) = [(t, c.exp)]) := by
  constructor
  · intro e he
    unfold logoutUser
    rw [he]
  · intro c hc
    have h1 : logoutUser now st t
        = ({ st with blacklist := (t, c.exp) :: st.blacklist },
           Format.success .empty "User logged out successfully") := by
      unfold logoutUser
      rw [hc]
      simp [blacklistToken, hfresh]
    refine ⟨h1, ?_⟩
    rw [h1]
    show ((t, c.exp) :: st.blacklist).filter (fun p => p.1 == t) = [(t, c.exp)]
    rw [List.filter_cons]
    simp [filter_eq_nil_of_any_eq_false _ _ hfresh]

/-- Witness for C5: a malformed token is a no-op success; a valid signed
token (exp 5000, now 100) ends up as the single blacklist entry with
expiry 5000. -/
theorem logoutUser_blacklist_witness :
    (([] : List (RToken × Nat)).any (fun p => p.1 == RToken.malformed "junk") = false
      ∧ logoutUser 100 ⟨[], []⟩ (RToken.malformed "junk")
          = (⟨[], []⟩, Format.success .empty "User already logged out"))
    ∧ (([] : List (RToken × Nat)).any
          (fun p => p.1 == RToken.signed ⟨1, "a@x.com", 5000⟩) = false
      ∧ logoutUser 100 ⟨[], []⟩ (RToken.signed ⟨1, "a@x.com", 5000⟩)
          = (⟨[], [(RToken.signed ⟨1, "a@x.com", 5000⟩, 5000)]⟩,
             Format.success .empty "User logged out successfully")
      ∧ (logoutUser 100 ⟨[], []⟩ (RToken.signed ⟨1, "a@x.com", 5000⟩)).1.blacklist.filter
          (fun p => p.1 == RToken.signed ⟨1, "a@x.com", 5000⟩)
          = [(RToken.signed ⟨1, "a@x.com", 5000⟩, 5000)]) :=
  ⟨⟨by decide,
    (logoutUser_blacklist 100 ⟨[], []⟩ (RToken.malformed "junk") (by decide)).1
      .tokenInvalid rfl⟩,
   by decide,
   (logoutUser_blacklist 100 ⟨[], []⟩ (RToken.signed ⟨1, "a@x.com", 5000⟩) (by decide)).2
     ⟨1, "a@x.com", 5000⟩ rfl⟩

/-- **C6** — whenever `refreshAccessToken` returns successfully (the old
token was not blacklisted before the call), the old refresh token is
recorded in the returned state's blacklist with the expiry decoded from
its `exp` claim: no new access token is ever returned without the old
token being blacklisted. -/
theorem refreshAccessToken_blacklists_old (now : Nat) (st : AppState) (user : User)
    (oldToken : RToken)
    (hfresh : st.blacklist.any (fun p => p.1 == oldToken) = false) :
    ∀ out, refreshAccessToken now st user oldToken = .ok out →
      ∃ c, decodeRefreshToken now oldToken = .ok c
        ∧ (oldToken, c.exp) ∈ out.1.blacklist := by
  intro out h
  unfold refreshAccessToken at h
  cases hd : decodeRefreshToken now oldToken with
  | error e =>
    rw [hd] at h
    exact absurd h (by simp)
  | ok c =>
    rw [hd] at h
    injection h with h
    refine ⟨c, rfl, ?_⟩
    rw [← h]
    simp [blacklistToken, hfresh]

/-- Witness for C6: refreshing with a valid signed token (exp 5000) at
time 100 from an empty blacklist succeeds and the result's blacklist
contains the consumed token with expiry 5000. -/
theorem refreshAccessToken_blacklists_old_witness :
    (([] : List (RToken × Nat)).any
        (fun p => p.1 == RToken.signed ⟨1, "a@x.com", 5000⟩) = false)
    ∧ (∃ c, decodeRefreshToken 100 (RToken.signed ⟨1, "a@x.com", 5000⟩) = .ok c
        ∧ (RToken.signed ⟨1, "a@x.com", 5000⟩, c.exp)
            ∈ (⟨⟨[], [(RToken.signed ⟨1, "a@x.com", 5000⟩, 5000)]⟩,
                "access.1.a@x.com",
                RToken.signed ⟨1, "a@x.com", 100 + 7 * 24 * 60 * 60 * 1000⟩,
                Format.success (.tokenData "access.1.a@x.com")
                  "Access,Refresh token updated successfully"⟩ :
               AppState × String × RToken × Resp).1.blacklist) :=
  ⟨by decide,
   refreshAccessToken_blacklists_old 100 ⟨[], []⟩
     ⟨1, "a@x.com", bcryptHash "pw", true, "", none, none, none⟩
     (RToken.signed ⟨1, "a@x.com", 5000⟩) (by decide) _ rfl⟩

/-- Six concrete "random" bytes standing for `crypto.randomBytes(6)`. -/
def otpBytes6 : List (Fin 256) := [1, 2, 3, 4, 5, 6]

/-- **C7** — the claim fails on the code for ForgotPassword: unlike the
signup and unverified-login sends (which are not awaited), `forgotPassword`
`await`s its notifier send with no try/catch, so a send failure aborts the
operation — the result is the thrown notifier error, not the envelope the
operation produces when the send succeeds, and `user.save()` is never
reached. -/
theorem forgotPassword_send_failure_aborts :
    forgotPassword 1000 otpBytes6 (.error .sendFailed) stVerifiedCleared "a@x.com"
      = .error .sendFailed
    ∧ (forgotPassword 1000 otpBytes6 (.ok ()) stVerifiedCleared "a@x.com").isOk = true := by
  constructor <;> rfl

/-- **C8** — with a working notifier: for an unknown email,
`forgotPassword` returns NotFound; for a registered user it derives a
12-character lowercase-hex OTP from the six random bytes, stores only its
bcrypt hash together with an expiry 5 minutes (300000 ms) in the future,
persists the user, hands the plaintext OTP to the notifier, succeeds, and
leaves the blacklist untouched. -/
theorem forgotPassword_ok (now : Nat) (bs : List (Fin 256)) (st : AppState)
    (email : String) (hlen : bs.length = 6) :
    (getUserByEmail st email = none →
      forgotPassword now bs (.ok ()) st email
        = .ok (st, Format.notFound "User not found", none))
    ∧ (∀ user, getUserByEmail st email = some user →
        forgotPassword now bs (.ok ()) st email
          = .ok (saveUserRecord st
                   { user with otp := some (bcryptHash (toHexString bs)),
                               otpExpires := some (now + 5 * 60 * 1000) },
                 Format.success .empty "OTP sent to your email", some (toHexString bs))
        ∧ (toHexString bs).length = 12
        ∧ (∀ ch ∈ (toHexString bs).data, isHexDigitChar ch = true)
        ∧ (saveUserRecord st
             { user with otp := some (bcryptHash (toHexString bs)),
                         otpExpires := some (now + 5 * 60 * 1000) }).blacklist
            = st.blacklist) := by
  constructor
  · intro h
    unfold forgotPassword
    rw [h]
  · intro user h
    refine ⟨?_, ?_, isHex_of_mem_toHexString bs, rfl⟩
    · unfold forgotPassword
      rw [h]
    · rw [length_toHexString, hlen]

/-- Witness for C8 at the concrete registered user of
`stVerifiedCleared` and the byte vector `otpBytes6`. -/
theorem forgotPassword_ok_witness :
    otpBytes6.length = 6
    ∧ getUserByEmail stVerifiedCleared "a@x.com"
        = some ⟨1, "a@x.com", bcryptHash "pw", true, "", none, none, none⟩
    ∧ (forgotPassword 1000 otpBytes6 (.ok ()) stVerifiedCleared "a@x.com"
          = .ok (saveUserRecord stVerifiedCleared
                   ⟨1, "a@x.com", bcryptHash "pw", true, "", none,
                    some (bcryptHash (toHexString otpBytes6)),
                    some (1000 + 5 * 60 * 1000)⟩,
                 Format.success .empty "OTP sent to your email",
                 some (toHexString otpBytes6))
        ∧ (toHexString otpBytes6).length = 12
        ∧ (∀ ch ∈ (toHexString otpBytes6).data, isHexDigitChar ch = true)
        ∧ (saveUserRecord stVerifiedCleared
             ⟨1, "a@x.com", bcryptHash "pw", true, "", none,
              some (bcryptHash (toHexString otpBytes6)),
              some (1000 + 5 * 60 * 1000)⟩).blacklist
            = stVerifiedCleared.blacklist) :=
  ⟨by decide, by decide,
   (forgotPassword_ok 1000 otpBytes6 stVerifiedCleared "a@x.com" (by decide)).2
     ⟨1, "a@x.com", bcryptHash "pw", true, "", none, none, none⟩ rfl⟩

/-- **C10** — when decoding the old refresh token fails, the thrown error
propagates out of `refreshAccessToken` uncaught (no envelope is produced),
the controller forwards it to `next`, and the state — in particular the
blacklist — is unchanged, with no new token pair issued. -/
theorem refreshAccessToken_decode_error_propagates (now : Nat) (st : AppState)
    (user : User) (t : RToken) (e : DecodeErr)
    (hdec : decodeRefreshToken now t = .error e) :
    refreshAccessToken now st user t = .error e
    ∧ refreshAccessTokenHandler now st user t = (st, .nextErr e) := by
  have h1 : refreshAccessToken now st user t = .error e := by
    unfold refreshAccessToken
    rw [hdec]
  refine ⟨h1, ?_⟩
  unfold refreshAccessTokenHandler
  rw [h1]

/-- Witness for C10 at a malformed token: decoding fails with
`tokenInvalid`, the service propagates it and the handler forwards it. -/
theorem refreshAccessToken_decode_error_propagates_witness :
    decodeRefreshToken 100 (RToken.malformed "junk") = .error .tokenInvalid
    ∧ refreshAccessToken 100 ⟨[], []⟩
        ⟨1, "a@x.com", bcryptHash "pw", true, "", none, none, none⟩
        (RToken.malformed "junk") = .error .tokenInvalid
    ∧ refreshAccessTokenHandler 100 ⟨[], []⟩
        ⟨1, "a@x.com", bcryptHash "pw", true, "", none, none, none⟩
        (RToken.malformed "junk") = (⟨[], []⟩, .nextErr .tokenInvalid) := by
  refine ⟨rfl, ?_⟩
  exact refreshAccessToken_decode_error_propagates 100 ⟨[], []⟩
    ⟨1, "a@x.com", bcryptHash "pw", true, "", none, none, none⟩
    (RToken.malformed "junk") .tokenInvalid rfl

end CheckMark
